import Mathlib

/-!
Verification of the AQI (Air Quality Index) core of the Smart City Data
Analytics Dashboard (`src/js/environment.js`), shallowly embedded in Lean.
Concentrations are rationals; JavaScript `Math.round` is `jsRound`.
-/

/-- JavaScript `Math.round`: floor of `q + 1/2`. -/
def jsRound (q : ℚ) : ℤ := ⌊q + 1/2⌋

/-- One entry of a per-pollutant breakpoint table
(`{ min, max, minAQI, maxAQI }` in `environment.js`). -/
structure Breakpoint where
  min : ℚ
  max : ℚ
  minAQI : ℤ
  maxAQI : ℤ
deriving DecidableEq, Repr

/-- The first breakpoint whose range `[min, max]` contains the concentration:
the `for (const bp of breakpoints)` loop of `calculateAQIFromBreakpoints`. -/
def findBracket (c : ℚ) : List Breakpoint → Option Breakpoint
  | [] => none
  | bp :: rest => if bp.min ≤ c ∧ c ≤ bp.max then some bp else findBracket c rest

/-- The linear-interpolation formula applied inside the matching bracket. -/
def interpolate (c : ℚ) (bp : Breakpoint) : ℤ :=
  jsRound ((((bp.maxAQI : ℚ) - (bp.minAQI : ℚ)) / (bp.max - bp.min)) * (c - bp.min)
    + (bp.minAQI : ℚ))

/-- `calculateAQIFromBreakpoints(concentration, breakpoints)`: interpolate in
the matching bracket; above the last bracket return its `maxAQI`; else 0. -/
def calculateAQIFromBreakpoints (c : ℚ) (bps : List Breakpoint) : ℤ :=
  match findBracket c bps with
  | some bp => interpolate c bp
  | none =>
    match bps.getLast? with
    | some last => if c > last.max then last.maxAQI else 0
    | none => 0

/-- PM2.5 breakpoint table (`calculatePM25AQI`). -/
def pm25Breakpoints : List Breakpoint :=
  [⟨0, 12, 0, 50⟩, ⟨121/10, 354/10, 51, 100⟩, ⟨355/10, 554/10, 101, 150⟩,
   ⟨555/10, 1504/10, 151, 200⟩, ⟨1505/10, 2504/10, 201, 300⟩,
   ⟨2505/10, 5004/10, 301, 500⟩]

/-- PM10 breakpoint table (`calculatePM10AQI`). -/
def pm10Breakpoints : List Breakpoint :=
  [⟨0, 54, 0, 50⟩, ⟨55, 154, 51, 100⟩, ⟨155, 254, 101, 150⟩,
   ⟨255, 354, 151, 200⟩, ⟨355, 424, 201, 300⟩, ⟨425, 604, 301, 500⟩]

/-- NO2 breakpoint table (`calculateNO2AQI`). -/
def no2Breakpoints : List Breakpoint :=
  [⟨0, 53, 0, 50⟩, ⟨54, 100, 51, 100⟩, ⟨101, 360, 101, 150⟩,
   ⟨361, 649, 151, 200⟩, ⟨650, 1249, 201, 300⟩, ⟨1250, 2049, 301, 500⟩]

/-- SO2 breakpoint table (`calculateSO2AQI`). -/
def so2Breakpoints : List Breakpoint :=
  [⟨0, 35, 0, 50⟩, ⟨36, 75, 51, 100⟩, ⟨76, 185, 101, 150⟩,
   ⟨186, 304, 151, 200⟩, ⟨305, 604, 201, 300⟩, ⟨605, 1004, 301, 500⟩]

/-- CO breakpoint table (`calculateCOAQI`). -/
def coBreakpoints : List Breakpoint :=
  [⟨0, 44/10, 0, 50⟩, ⟨45/10, 94/10, 51, 100⟩, ⟨95/10, 124/10, 101, 150⟩,
   ⟨125/10, 154/10, 151, 200⟩, ⟨155/10, 304/10, 201, 300⟩,
   ⟨305/10, 504/10, 301, 500⟩]

/-- O3 breakpoint table (`calculateO3AQI`). -/
def o3Breakpoints : List Breakpoint :=
  [⟨0, 54, 0, 50⟩, ⟨55, 70, 51, 100⟩, ⟨71, 85, 101, 150⟩,
   ⟨86, 105, 151, 200⟩, ⟨106, 200, 201, 300⟩, ⟨201, 504, 301, 500⟩]

/-- `calculatePM25AQI(concentration)`. -/
def calculatePM25AQI (c : ℚ) : ℤ := calculateAQIFromBreakpoints c pm25Breakpoints

/-- `calculatePM10AQI(concentration)`. -/
def calculatePM10AQI (c : ℚ) : ℤ := calculateAQIFromBreakpoints c pm10Breakpoints

/-- `calculateNO2AQI(concentration)`. -/
def calculateNO2AQI (c : ℚ) : ℤ := calculateAQIFromBreakpoints c no2Breakpoints

/-- `calculateSO2AQI(concentration)`. -/
def calculateSO2AQI (c : ℚ) : ℤ := calculateAQIFromBreakpoints c so2Breakpoints

/-- `calculateCOAQI(concentration)`. -/
def calculateCOAQI (c : ℚ) : ℤ := calculateAQIFromBreakpoints c coBreakpoints

/-- `calculateO3AQI(concentration)`. -/
def calculateO3AQI (c : ℚ) : ℤ := calculateAQIFromBreakpoints c o3Breakpoints

/-- The six pollutants handled by the engine. -/
inductive Pollutant where
  | pm25 | pm10 | no2 | so2 | co | o3
deriving DecidableEq, Repr

/-- The breakpoint table used for each pollutant. -/
def breakpointsFor : Pollutant → List Breakpoint
  | .pm25 => pm25Breakpoints
  | .pm10 => pm10Breakpoints
  | .no2 => no2Breakpoints
  | .so2 => so2Breakpoints
  | .co => coBreakpoints
  | .o3 => o3Breakpoints

/-- The per-pollutant sub-index (the spec calls it `computeSubIndex`):
`calculateAQIFromBreakpoints` on that pollutant's table. -/
def calcSubIndex (p : Pollutant) (c : ℚ) : ℤ :=
  calculateAQIFromBreakpoints c (breakpointsFor p)

/-- `calculateAQI(pm25, pm10, no2, so2, co, o3)`: the maximum of the six
per-pollutant sub-indices. -/
def calculateAQI (pm25 pm10 no2 so2 co o3 : ℚ) : ℤ :=
  max (max (max (max (max (calculatePM25AQI pm25) (calculatePM10AQI pm10))
    (calculateNO2AQI no2)) (calculateSO2AQI so2)) (calculateCOAQI co))
    (calculateO3AQI o3)

/-- AQI category labels returned by `getAQICategory`. -/
inductive AQICategory where
  | good | moderate | unhealthy_for_sensitive | unhealthy | very_unhealthy | hazardous
deriving DecidableEq, Repr

/-- `getAQICategory(aqi)`. -/
def getAQICategory (aqi : ℤ) : AQICategory :=
  if aqi ≤ 50 then .good
  else if aqi ≤ 100 then .moderate
  else if aqi ≤ 150 then .unhealthy_for_sensitive
  else if aqi ≤ 200 then .unhealthy
  else if aqi ≤ 300 then .very_unhealthy
  else .hazardous

/-- Risk levels assigned by `calculateHealthRisks`. -/
inductive RiskLevel where
  | minimal | low | moderate | high | very_high | severe
deriving DecidableEq, Repr

/-- Demographic groups of the `riskFactors` table. -/
inductive DemographicGroup where
  | general | elderly | children | respiratory | cardiovascular
deriving DecidableEq, Repr

/-- The `riskFactors` table of `calculateHealthRisks`. -/
def riskFactors : DemographicGroup → ℚ
  | .general => 1
  | .elderly => 3/2
  | .children => 13/10
  | .respiratory => 2
  | .cardiovascular => 9/5

/-- The base risk level derived from the AQI value in `calculateHealthRisks`. -/
def baseRiskLevel (aqi : ℤ) : RiskLevel :=
  if aqi ≤ 50 then .minimal
  else if aqi ≤ 100 then .low
  else if aqi ≤ 150 then .moderate
  else if aqi ≤ 200 then .high
  else if aqi ≤ 300 then .very_high
  else .severe

/-- The `switch (riskLevel)` base score of `calculateHealthRisks`. -/
def riskScoreBase : RiskLevel → ℤ
  | .minimal => 10
  | .low => 30
  | .moderate => 50
  | .high => 70
  | .very_high => 85
  | .severe => 100

/-- `generateHealthRecommendations(riskLevel, demographicGroup)`: the general
messages for the risk level followed by the group-gated messages. -/
def generateHealthRecommendations (riskLevel : RiskLevel) (g : DemographicGroup) : List String :=
  let general : List String :=
    match riskLevel with
    | .minimal => ["Air quality is good. No special precautions needed."]
    | .low => ["Air quality is acceptable. Unusually sensitive individuals should consider reducing prolonged outdoor exertion."]
    | .moderate => ["Members of sensitive groups may experience health effects. The general public is less likely to be affected.",
        "Consider reducing prolonged or heavy outdoor exertion."]
    | .high => ["Everyone may begin to experience health effects. Members of sensitive groups may experience more serious effects.",
        "Avoid prolonged or heavy outdoor exertion. Consider moving activities indoors or rescheduling."]
    | .very_high => ["Health alert: The risk of health effects is increased for everyone.",
        "Avoid all outdoor physical activity. Stay indoors with windows closed if possible."]
    | .severe => ["Health warning of emergency conditions: everyone is more likely to be affected.",
        "Remain indoors with windows closed. If available, use air purifiers.",
        "Wear N95 masks if outdoor activity is unavoidable."]
  let specific : List String :=
    if g = .elderly ∧ riskLevel ≠ .minimal then
      ["Elderly individuals should take extra precautions to limit exposure."] ++
      (if riskLevel = .high ∨ riskLevel = .very_high ∨ riskLevel = .severe then
        ["Consider checking in with healthcare provider if respiratory symptoms develop."]
       else [])
    else if g = .children ∧ riskLevel ≠ .minimal then
      ["Children should reduce outdoor play time."] ++
      (if riskLevel = .high ∨ riskLevel = .very_high ∨ riskLevel = .severe then
        ["Keep children indoors with windows closed."]
       else [])
    else if g = .respiratory ∧ riskLevel ≠ .minimal then
      ["Individuals with respiratory conditions should have medication readily available."] ++
      (if riskLevel = .moderate ∨ riskLevel = .high then
        ["Consider using a mask (N95 or better) when outdoors."]
       else []) ++
      (if riskLevel = .very_high ∨ riskLevel = .severe then
        ["Stay indoors and use air purifiers if available.",
         "Contact healthcare provider if symptoms worsen."]
       else [])
    else if g = .cardiovascular ∧ riskLevel ≠ .minimal then
      ["Individuals with cardiovascular conditions should avoid physical exertion."] ++
      (if riskLevel = .high ∨ riskLevel = .very_high ∨ riskLevel = .severe then
        ["Stay in air-conditioned environments when possible.",
         "Monitor blood pressure and contact healthcare provider if unusual symptoms occur."]
       else [])
    else []
  general ++ specific

/-- The per-group risk record built by `calculateHealthRisks`. -/
structure GroupRisk where
  level : RiskLevel
  score : ℤ
  recommendations : List String
deriving DecidableEq, Repr

/-- The body of the per-group loop of `calculateHealthRisks`: base level from
the AQI, base score scaled by the group factor and capped at 100. -/
def calculateGroupRisk (aqi : ℤ) (g : DemographicGroup) : GroupRisk :=
  let riskLevel := baseRiskLevel aqi
  let riskScore := riskScoreBase riskLevel
  let riskScore := min 100 (jsRound ((riskScore : ℚ) * riskFactors g))
  { level := riskLevel, score := riskScore,
    recommendations := generateHealthRecommendations riskLevel g }

/-- One hourly entry produced by `generateForecasts`. -/
structure ForecastPoint where
  aqi : ℤ
  category : AQICategory
  confidence : ℤ
deriving DecidableEq, Repr

/-- The body of the hourly loop of `generateForecasts`. The hour of day of
the forecast instant and the random-noise term are taken as parameters. -/
def forecastHourly (currentAQI : ℤ) (hourOfDay : ℕ) (noise : ℚ) (hour : ℕ) : ForecastPoint :=
  let variation : ℚ :=
    if 7 ≤ hourOfDay ∧ hourOfDay ≤ 9 then 15
    else if 16 ≤ hourOfDay ∧ hourOfDay ≤ 19 then 20
    else if 22 ≤ hourOfDay ∨ hourOfDay ≤ 5 then -10
    else 0
  let variation := variation + noise
  let forecastedAQI := max 0 (jsRound ((currentAQI : ℚ) + variation))
  { aqi := forecastedAQI,
    category := getAQICategory forecastedAQI,
    confidence := jsRound (90 - ((hour : ℚ) / 48) * 30) }

/-! ## General lemmas about the bracket search -/

/-- The bracket search fails exactly when no bracket's range contains `c`. -/
lemma findBracket_eq_none_iff (c : ℚ) (bps : List Breakpoint) :
    findBracket c bps = none ↔ ∀ bp ∈ bps, ¬ (bp.min ≤ c ∧ c ≤ bp.max) := by
  induction bps with
  | nil => simp [findBracket]
  | cons hd tl ih =>
    by_cases h : hd.min ≤ c ∧ c ≤ hd.max
    · simp [findBracket, h]
    · have hstep : findBracket c (hd :: tl) = findBracket c tl := by
        rw [findBracket, if_neg h]
      rw [hstep, ih, List.forall_mem_cons]
      simp [h]

/-- On a table whose brackets are sorted apart, the search returns the
(unique) bracket whose range contains `c`. -/
lemma findBracket_of_mem (c : ℚ) (bp : Breakpoint) (h1 : bp.min ≤ c) (h2 : c ≤ bp.max) :
    ∀ bps : List Breakpoint, List.Pairwise (fun a b => a.max < b.min) bps →
      bp ∈ bps → findBracket c bps = some bp := by
  intro bps
  induction bps with
  | nil => intro _ h; cases h
  | cons hd tl ih =>
    intro hs hbp
    rcases List.mem_cons.mp hbp with rfl | hmem
    · rw [findBracket, if_pos ⟨h1, h2⟩]
    · have hlt : hd.max < bp.min := (List.pairwise_cons.mp hs).1 bp hmem
      have hcond : ¬ (hd.min ≤ c ∧ c ≤ hd.max) := by
        rintro ⟨-, hc2⟩; linarith
      rw [findBracket, if_neg hcond]
      exact ih (List.pairwise_cons.mp hs).2 hmem

/-- Unfolding `calculateAQIFromBreakpoints` when a bracket matches. -/
lemma calcAQI_of_findBracket_some (c : ℚ) (bps : List Breakpoint) (bp : Breakpoint)
    (h : findBracket c bps = some bp) :
    calculateAQIFromBreakpoints c bps = interpolate c bp := by
  unfold calculateAQIFromBreakpoints
  rw [h]

/-- Unfolding `calculateAQIFromBreakpoints` when no bracket matches. -/
lemma calcAQI_of_findBracket_none (c : ℚ) (bps : List Breakpoint)
    (h : findBracket c bps = none) :
    calculateAQIFromBreakpoints c bps =
      match bps.getLast? with
      | some last => if c > last.max then last.maxAQI else 0
      | none => 0 := by
  unfold calculateAQIFromBreakpoints
  rw [h]

/-- The last element of a list is a member. -/
lemma mem_of_getLast?_eq {l : List Breakpoint} {a : Breakpoint}
    (h : l.getLast? = some a) : a ∈ l := by
  rcases List.mem_getLast?_eq_getLast (Option.mem_def.mpr h) with ⟨hne, hx⟩
  subst hx
  exact List.getLast_mem hne

/-- Each of the six tables is sorted with each bracket strictly below the next. -/
lemma tables_sorted (p : Pollutant) :
    List.Pairwise (fun a b => a.max < b.min) (breakpointsFor p) := by
  cases p <;>
    simp only [breakpointsFor, pm25Breakpoints, pm10Breakpoints, no2Breakpoints,
      so2Breakpoints, coBreakpoints, o3Breakpoints, List.pairwise_cons,
      List.forall_mem_cons, List.forall_mem_ne, List.not_mem_nil, List.Pairwise.nil,
      List.mem_cons, List.mem_singleton] <;>
    norm_num

/-- Each bracket of each table has its low bound at most its high bound. -/
lemma tables_wf (p : Pollutant) :
    ∀ bp ∈ breakpointsFor p, bp.min ≤ bp.max := by
  cases p <;>
    simp only [breakpointsFor, pm25Breakpoints, pm10Breakpoints, no2Breakpoints,
      so2Breakpoints, coBreakpoints, o3Breakpoints, List.forall_mem_cons,
      List.not_mem_nil, List.mem_cons, List.mem_singleton] <;>
    norm_num


/-- Each bracket of each table has its low bound strictly below its high bound. -/
lemma tables_strict (p : Pollutant) :
    ∀ bp ∈ breakpointsFor p, bp.min < bp.max := by
  cases p <;>
    simp only [breakpointsFor, pm25Breakpoints, pm10Breakpoints, no2Breakpoints,
      so2Breakpoints, coBreakpoints, o3Breakpoints, List.forall_mem_cons,
      List.not_mem_nil, List.mem_cons, List.mem_singleton] <;>
    norm_num

/-- Every bracket low bound of every table is non-negative. -/
lemma tables_nonneg (p : Pollutant) :
    ∀ bp ∈ breakpointsFor p, (0:ℚ) ≤ bp.min := by
  cases p <;>
    simp only [breakpointsFor, pm25Breakpoints, pm10Breakpoints, no2Breakpoints,
      so2Breakpoints, coBreakpoints, o3Breakpoints, List.forall_mem_cons,
      List.not_mem_nil, List.mem_cons, List.mem_singleton] <;>
    norm_num

/-- Rounding an integer leaves it unchanged. -/
lemma jsRound_intCast (a : ℤ) : jsRound (a : ℚ) = a := by
  unfold jsRound
  rw [Int.floor_eq_iff]
  constructor <;> linarith

/-- `calculateAQIFromBreakpoints` when no bracket matches and the table has a
known last bracket. -/
lemma calcAQI_none_last (c : ℚ) (bps : List Breakpoint) (last : Breakpoint)
    (h : findBracket c bps = none) (hl : bps.getLast? = some last) :
    calculateAQIFromBreakpoints c bps = if c > last.max then last.maxAQI else 0 := by
  unfold calculateAQIFromBreakpoints
  rw [h, hl]

/-- `calculateAQIFromBreakpoints` on an empty table with no match. -/
lemma calcAQI_none_nil (c : ℚ) (bps : List Breakpoint)
    (h : findBracket c bps = none) (hl : bps.getLast? = none) :
    calculateAQIFromBreakpoints c bps = 0 := by
  unfold calculateAQIFromBreakpoints
  rw [h, hl]

/-! ## Claims -/

/-- Claim C1: for every pollutant and every concentration c ≥ 0, the sub-index
is the rounded linear interpolation
`round((aqiHigh - aqiLow)/(concHigh - concLow) * (c - concLow) + aqiLow)`
inside the (unique) bracket containing c; when c exceeds every bracket's high
bound it is the last bracket's aqiHigh (so the PM2.5 sub-index of 1000 is
500); when c is below every bracket's low bound it is 0. -/
theorem C1_subIndex_interpolation_saturation_default :
    ∀ (p : Pollutant) (c : ℚ), 0 ≤ c →
      (∀ bp ∈ breakpointsFor p, bp.min ≤ c → c ≤ bp.max →
        calcSubIndex p c =
          jsRound ((((bp.maxAQI : ℚ) - (bp.minAQI : ℚ)) / (bp.max - bp.min)) * (c - bp.min)
            + (bp.minAQI : ℚ))) ∧
      ((∀ bp ∈ breakpointsFor p, bp.max < c) →
        ∀ last, (breakpointsFor p).getLast? = some last → calcSubIndex p c = last.maxAQI) ∧
      ((∀ bp ∈ breakpointsFor p, c < bp.min) → calcSubIndex p c = 0) ∧
      calcSubIndex Pollutant.pm25 1000 = 500 := by
  intro p c hc
  refine ⟨?_, ?_, ?_, ?_⟩
  · intro bp hbp h1 h2
    have hfind := findBracket_of_mem c bp h1 h2 (breakpointsFor p) (tables_sorted p) hbp
    unfold calcSubIndex
    rw [calcAQI_of_findBracket_some _ _ _ hfind]
    rfl
  · intro habove last hlast
    have hnone : findBracket c (breakpointsFor p) = none := by
      rw [findBracket_eq_none_iff]
      intro bp hbp
      rintro ⟨-, h2⟩
      exact absurd h2 (not_le.mpr (habove bp hbp))
    have hmem := mem_of_getLast?_eq hlast
    unfold calcSubIndex
    rw [calcAQI_none_last c _ last hnone hlast, if_pos (habove last hmem)]
  · intro hbelow
    have hnone : findBracket c (breakpointsFor p) = none := by
      rw [findBracket_eq_none_iff]
      intro bp hbp
      rintro ⟨h1, -⟩
      exact absurd h1 (not_le.mpr (hbelow bp hbp))
    cases hlast : (breakpointsFor p).getLast? with
    | none =>
      unfold calcSubIndex
      rw [calcAQI_none_nil c _ hnone hlast]
    | some last =>
      have hmem := mem_of_getLast?_eq hlast
      have h1 : c < last.min := hbelow last hmem
      have h2 : last.min ≤ last.max := tables_wf p last hmem
      have hng : ¬ c > last.max := by
        rw [gt_iff_lt, not_lt]
        linarith
      unfold calcSubIndex
      rw [calcAQI_none_last c _ last hnone hlast, if_neg hng]
  · norm_num [calcSubIndex, breakpointsFor, calculateAQIFromBreakpoints, findBracket,
      pm25Breakpoints, interpolate, jsRound, List.getLast?]

/-- Witness for C1: the saturation branch at the concrete input pm25, 1000. -/
theorem C1_subIndex_interpolation_saturation_default_witness :
    calcSubIndex Pollutant.pm25 1000 =
      (⟨2505/10, 5004/10, 301, 500⟩ : Breakpoint).maxAQI :=
  (C1_subIndex_interpolation_saturation_default Pollutant.pm25 1000 (by norm_num)).2.1
    (by norm_num [breakpointsFor, pm25Breakpoints, List.forall_mem_cons]) _ rfl

/-- Claim C2: the aggregate AQI is the maximum of the six per-pollutant
sub-indices — each sub-index is a lower bound and the result equals one of
them — and on the reading set pm25 = 9.6 (sub-index 40), no2 = 91
(sub-index 90), all others 0, it is 90 with category moderate. -/
theorem C2_calculateAQI_is_max_of_subindices :
    (∀ pm25 pm10 no2 so2 co o3 : ℚ,
      (∀ x ∈ [calculatePM25AQI pm25, calculatePM10AQI pm10, calculateNO2AQI no2,
          calculateSO2AQI so2, calculateCOAQI co, calculateO3AQI o3],
        x ≤ calculateAQI pm25 pm10 no2 so2 co o3) ∧
      calculateAQI pm25 pm10 no2 so2 co o3 ∈
        [calculatePM25AQI pm25, calculatePM10AQI pm10, calculateNO2AQI no2,
         calculateSO2AQI so2, calculateCOAQI co, calculateO3AQI o3]) ∧
    calculatePM25AQI (48/5) = 40 ∧ calculateNO2AQI 91 = 90 ∧
    calculateAQI (48/5) 0 91 0 0 0 = 90 ∧
    getAQICategory (calculateAQI (48/5) 0 91 0 0 0) = AQICategory.moderate := by
  refine ⟨?_, ?_, ?_, ?_, ?_⟩
  · intro pm25 pm10 no2 so2 co o3
    constructor
    · intro x hx
      simp only [List.mem_cons, List.not_mem_nil, or_false] at hx
      unfold calculateAQI
      rcases hx with rfl|rfl|rfl|rfl|rfl|rfl <;> omega
    · unfold calculateAQI
      simp only [List.mem_cons, List.not_mem_nil, or_false]
      omega
  · norm_num [calculatePM25AQI, calculateAQIFromBreakpoints, findBracket,
      pm25Breakpoints, interpolate, jsRound]
  · norm_num [calculateNO2AQI, calculateAQIFromBreakpoints, findBracket,
      no2Breakpoints, interpolate, jsRound]
  · norm_num [calculateAQI, calculatePM25AQI, calculatePM10AQI, calculateNO2AQI,
      calculateSO2AQI, calculateCOAQI, calculateO3AQI, calculateAQIFromBreakpoints,
      findBracket, pm25Breakpoints, pm10Breakpoints, no2Breakpoints, so2Breakpoints,
      coBreakpoints, o3Breakpoints, interpolate, jsRound]
  · norm_num [calculateAQI, calculatePM25AQI, calculatePM10AQI, calculateNO2AQI,
      calculateSO2AQI, calculateCOAQI, calculateO3AQI, calculateAQIFromBreakpoints,
      findBracket, pm25Breakpoints, pm10Breakpoints, no2Breakpoints, so2Breakpoints,
      coBreakpoints, o3Breakpoints, interpolate, jsRound, getAQICategory]

/-- Witness for C2: the PM2.5 sub-index of a concrete reading set bounds the
aggregate AQI from below. -/
theorem C2_calculateAQI_is_max_of_subindices_witness :
    calculatePM25AQI 5 ≤ calculateAQI 5 0 0 0 0 0 :=
  (C2_calculateAQI_is_max_of_subindices.1 5 0 0 0 0 0).1 (calculatePM25AQI 5) (by simp)

/-- Claim C3: the AQI category thresholds, exact at every boundary: good iff
v ≤ 50, moderate iff 50 < v ≤ 100, unhealthy-for-sensitive iff
100 < v ≤ 150, unhealthy iff 150 < v ≤ 200, very unhealthy iff
200 < v ≤ 300, hazardous iff 300 < v. -/
theorem C3_getAQICategory_thresholds :
    ∀ v : ℤ, 0 ≤ v →
      ((getAQICategory v = AQICategory.good ↔ v ≤ 50) ∧
       (getAQICategory v = AQICategory.moderate ↔ 50 < v ∧ v ≤ 100) ∧
       (getAQICategory v = AQICategory.unhealthy_for_sensitive ↔ 100 < v ∧ v ≤ 150) ∧
       (getAQICategory v = AQICategory.unhealthy ↔ 150 < v ∧ v ≤ 200) ∧
       (getAQICategory v = AQICategory.very_unhealthy ↔ 200 < v ∧ v ≤ 300) ∧
       (getAQICategory v = AQICategory.hazardous ↔ 300 < v)) := by
  intro v _
  unfold getAQICategory
  split_ifs with h1 h2 h3 h4 h5 <;> refine ⟨?_, ?_, ?_, ?_, ?_, ?_⟩ <;>
    simp_all <;> omega

/-- Witness for C3 at the boundary value 101. -/
theorem C3_getAQICategory_thresholds_witness :
    getAQICategory 101 = AQICategory.unhealthy_for_sensitive :=
  ((C3_getAQICategory_thresholds 101 (by norm_num)).2.2.1).mpr (by norm_num)

/-- Claim C4: for each pollutant and each bracket of its table, the sub-index
evaluated exactly at the bracket's high bound is that bracket's aqiHigh, and
evaluated exactly at the bracket's low bound is that bracket's aqiLow (hence
in particular at the next bracket's low bound it is the next aqiLow). -/
theorem C4_bracket_boundary_continuity :
    ∀ p : Pollutant, ∀ bp ∈ breakpointsFor p,
      calcSubIndex p bp.max = bp.maxAQI ∧ calcSubIndex p bp.min = bp.minAQI := by
  intro p bp hbp
  have hwf := tables_wf p bp hbp
  constructor
  · have hfind := findBracket_of_mem bp.max bp hwf le_rfl (breakpointsFor p)
      (tables_sorted p) hbp
    unfold calcSubIndex
    rw [calcAQI_of_findBracket_some _ _ _ hfind]
    unfold interpolate
    have hne : bp.max - bp.min ≠ 0 :=
      sub_ne_zero.mpr (ne_of_gt (tables_strict p bp hbp))
    have hsimp : (((bp.maxAQI : ℚ) - (bp.minAQI : ℚ)) / (bp.max - bp.min)) *
        (bp.max - bp.min) + (bp.minAQI : ℚ) = ((bp.maxAQI : ℤ) : ℚ) := by
      field_simp
    rw [hsimp, jsRound_intCast]
  · have hfind := findBracket_of_mem bp.min bp le_rfl hwf (breakpointsFor p)
      (tables_sorted p) hbp
    unfold calcSubIndex
    rw [calcAQI_of_findBracket_some _ _ _ hfind]
    unfold interpolate
    have hsimp : (((bp.maxAQI : ℚ) - (bp.minAQI : ℚ)) / (bp.max - bp.min)) *
        (bp.min - bp.min) + (bp.minAQI : ℚ) = ((bp.minAQI : ℤ) : ℚ) := by
      ring
    rw [hsimp, jsRound_intCast]

/-- Witness for C4: the second PM2.5 bracket at its high bound 35.4 yields 100. -/
theorem C4_bracket_boundary_continuity_witness :
    calcSubIndex Pollutant.pm25 ((⟨121/10, 354/10, 51, 100⟩ : Breakpoint).max) =
      (⟨121/10, 354/10, 51, 100⟩ : Breakpoint).maxAQI :=
  (C4_bracket_boundary_continuity Pollutant.pm25 ⟨121/10, 354/10, 51, 100⟩
    (by norm_num [breakpointsFor, pm25Breakpoints])).1

/-- Counterexample to C5: the concentration 12.05 is non-negative, lies in no
PM2.5 bracket, and is not above the table's top (it is at most the last
bracket's high bound 500.4), so the brackets do not cover [0, ∞). -/
theorem C5_counterexample_gap_not_covered :
    0 ≤ (241/20 : ℚ) ∧
    (¬ ∃ bp ∈ pm25Breakpoints, bp.min ≤ (241/20 : ℚ) ∧ (241/20 : ℚ) ≤ bp.max) ∧
    pm25Breakpoints.getLast? = some ⟨2505/10, 5004/10, 301, 500⟩ ∧
    ¬ ((241/20 : ℚ) > (⟨2505/10, 5004/10, 301, 500⟩ : Breakpoint).max) := by
  refine ⟨by norm_num, ?_, rfl, by norm_num⟩
  rintro ⟨bp, hbp, h1, h2⟩
  simp only [pm25Breakpoints, List.mem_cons, List.not_mem_nil, or_false] at hbp
  rcases hbp with rfl|rfl|rfl|rfl|rfl|rfl <;> simp only [] at h1 h2 <;> linarith

/-- C5 amended: for every pollutant the brackets are well-formed and sorted
strictly apart (non-overlapping), but they are not contiguous: adjacent
brackets leave gaps, e.g. PM2.5 leaves (12, 12.1) uncovered although 12.05
is below the table's top, and the final bracket is bounded above. -/
theorem C5_amended_sorted_disjoint_with_gaps :
    (∀ p : Pollutant,
      List.Pairwise (fun a b => a.max < b.min) (breakpointsFor p) ∧
      ∀ bp ∈ breakpointsFor p, bp.min ≤ bp.max) ∧
    (¬ ∃ bp ∈ pm25Breakpoints, bp.min ≤ (241/20 : ℚ) ∧ (241/20 : ℚ) ≤ bp.max) ∧
    (⟨2505/10, 5004/10, 301, 500⟩ : Breakpoint) ∈ pm25Breakpoints ∧
    (241/20 : ℚ) ≤ (⟨2505/10, 5004/10, 301, 500⟩ : Breakpoint).max := by
  refine ⟨fun p => ⟨tables_sorted p, tables_wf p⟩, ?_, ?_, by norm_num⟩
  · rintro ⟨bp, hbp, h1, h2⟩
    simp only [pm25Breakpoints, List.mem_cons, List.not_mem_nil, or_false] at hbp
    rcases hbp with rfl|rfl|rfl|rfl|rfl|rfl <;> simp only [] at h1 h2 <;> linarith
  · norm_num [pm25Breakpoints]

/-- Witness for the amended C5: the first PM2.5 bracket is well-formed. -/
theorem C5_amended_sorted_disjoint_with_gaps_witness :
    (⟨0, 12, 0, 50⟩ : Breakpoint).min ≤ (⟨0, 12, 0, 50⟩ : Breakpoint).max :=
  (C5_amended_sorted_disjoint_with_gaps.1 Pollutant.pm25).2 ⟨0, 12, 0, 50⟩
    (by norm_num [breakpointsFor, pm25Breakpoints])

/-- Claim C6: the health-risk score is the base score of the AQI-derived risk
level (minimal 10, low 30, moderate 50, high 70, very high 85, severe 100)
scaled by the fixed group factor (general 1, elderly 1.5, children 1.3,
respiratory 2, cardiovascular 1.8), rounded and clamped to [0, 100]; the
reported risk level is the unscaled base level, independent of the group. -/
theorem C6_health_risk_score_and_level :
    ∀ (aqi : ℤ) (g : DemographicGroup),
      (calculateGroupRisk aqi g).level = baseRiskLevel aqi ∧
      (calculateGroupRisk aqi g).score =
        min 100 (jsRound ((riskScoreBase (baseRiskLevel aqi) : ℚ) * riskFactors g)) ∧
      0 ≤ (calculateGroupRisk aqi g).score ∧ (calculateGroupRisk aqi g).score ≤ 100 ∧
      riskScoreBase RiskLevel.minimal = 10 ∧ riskScoreBase RiskLevel.low = 30 ∧
      riskScoreBase RiskLevel.moderate = 50 ∧ riskScoreBase RiskLevel.high = 70 ∧
      riskScoreBase RiskLevel.very_high = 85 ∧ riskScoreBase RiskLevel.severe = 100 ∧
      riskFactors DemographicGroup.general = 1 ∧
      riskFactors DemographicGroup.elderly = 3/2 ∧
      riskFactors DemographicGroup.children = 13/10 ∧
      riskFactors DemographicGroup.respiratory = 2 ∧
      riskFactors DemographicGroup.cardiovascular = 9/5 := by
  intro aqi g
  refine ⟨rfl, rfl, ?_, ?_, rfl, rfl, rfl, rfl, rfl, rfl, rfl, rfl, rfl, rfl, rfl⟩
  · simp only [calculateGroupRisk]
    cases hl : baseRiskLevel aqi <;> cases g <;>
      norm_num [riskScoreBase, riskFactors, jsRound]
  · simp only [calculateGroupRisk]
    exact min_le_left _ _

/-- Claim C7: the forecast confidence at hour h is round(90 - (h/48)*30); it
is 89 at h = 1 and 60 at h = 48, and is non-increasing in h. -/
theorem C7_forecast_confidence_decay :
    ∀ (currentAQI : ℤ) (hourOfDay : ℕ) (noise : ℚ),
      (∀ h : ℕ, 1 ≤ h → h ≤ 48 →
        (forecastHourly currentAQI hourOfDay noise h).confidence =
          jsRound (90 - ((h : ℚ) / 48) * 30)) ∧
      (forecastHourly currentAQI hourOfDay noise 1).confidence = 89 ∧
      (forecastHourly currentAQI hourOfDay noise 48).confidence = 60 ∧
      (∀ h h2 : ℕ, h ≤ h2 →
        (forecastHourly currentAQI hourOfDay noise h2).confidence ≤
          (forecastHourly currentAQI hourOfDay noise h).confidence) := by
  intro currentAQI hourOfDay noise
  refine ⟨fun h _ _ => rfl, ?_, ?_, ?_⟩
  · norm_num [forecastHourly, jsRound]
  · norm_num [forecastHourly, jsRound]
  · intro h h2 hle
    show jsRound (90 - ((h2 : ℚ) / 48) * 30) ≤ jsRound (90 - ((h : ℚ) / 48) * 30)
    unfold jsRound
    apply Int.floor_le_floor
    have hc : (h : ℚ) ≤ (h2 : ℚ) := by exact_mod_cast hle
    linarith

/-- Witness for C7 at hour 1 of a concrete forecast. -/
theorem C7_forecast_confidence_decay_witness :
    (forecastHourly 50 12 0 1).confidence = jsRound (90 - (((1:ℕ) : ℚ) / 48) * 30) :=
  (C7_forecast_confidence_decay 50 12 0).1 1 (by norm_num) (by norm_num)

/-- Counterexample to C8: a negative concentration does not fail with a typed
error — the PM2.5 sub-index of -5 is the plain numeric default 0. -/
theorem C8_counterexample_negative_input_returns_zero :
    calculatePM25AQI (-5) = 0 := by
  norm_num [calculatePM25AQI, calculateAQIFromBreakpoints, findBracket,
    pm25Breakpoints, interpolate, jsRound, List.getLast?]

/-- C8 amended: the code defines no typed errors; a negative concentration
falls outside every bracket of every table and yields the default 0, and the
aggregate AQI of the all-zero reading set is the numeric value 0. -/
theorem C8_amended_silent_default_instead_of_errors :
    (∀ (p : Pollutant) (c : ℚ), c < 0 → calcSubIndex p c = 0) ∧
    calculateAQI 0 0 0 0 0 0 = 0 := by
  constructor
  · intro p c hc
    have hnone : findBracket c (breakpointsFor p) = none := by
      rw [findBracket_eq_none_iff]
      intro bp hbp
      rintro ⟨h1, -⟩
      have h0 : (0:ℚ) ≤ bp.min := tables_nonneg p bp hbp
      linarith
    cases hlast : (breakpointsFor p).getLast? with
    | none =>
      unfold calcSubIndex
      rw [calcAQI_none_nil c _ hnone hlast]
    | some last =>
      have hmem := mem_of_getLast?_eq hlast
      have h0 := tables_nonneg p last hmem
      have hwf := tables_wf p last hmem
      have hng : ¬ c > last.max := by
        rw [gt_iff_lt, not_lt]
        linarith
      unfold calcSubIndex
      rw [calcAQI_none_last c _ last hnone hlast, if_neg hng]
  · norm_num [calculateAQI, calculatePM25AQI, calculatePM10AQI, calculateNO2AQI,
      calculateSO2AQI, calculateCOAQI, calculateO3AQI, calculateAQIFromBreakpoints,
      findBracket, pm25Breakpoints, pm10Breakpoints, no2Breakpoints, so2Breakpoints,
      coBreakpoints, o3Breakpoints, interpolate, jsRound]

/-- Witness for the amended C8 at pm25, c = -5. -/
theorem C8_amended_silent_default_instead_of_errors_witness :
    calcSubIndex Pollutant.pm25 (-5) = 0 :=
  C8_amended_silent_default_instead_of_errors.1 Pollutant.pm25 (-5) (by norm_num)

/-- Counterexample to C9: the respiratory group does not get both mask and
medical-contact guidance at all of high, very high, and severe — at high the
recommendation list has no medical-contact message, and at very high it has
no mask message. -/
theorem C9_counterexample_respiratory_gating :
    (¬ "Contact healthcare provider if symptoms worsen." ∈
        generateHealthRecommendations RiskLevel.high DemographicGroup.respiratory) ∧
    (¬ "Consider using a mask (N95 or better) when outdoors." ∈
        generateHealthRecommendations RiskLevel.very_high DemographicGroup.respiratory) ∧
    generateHealthRecommendations RiskLevel.high DemographicGroup.respiratory =
      ["Everyone may begin to experience health effects. Members of sensitive groups may experience more serious effects.",
       "Avoid prolonged or heavy outdoor exertion. Consider moving activities indoors or rescheduling.",
       "Individuals with respiratory conditions should have medication readily available.",
       "Consider using a mask (N95 or better) when outdoors."] := by
  refine ⟨?_, ?_, rfl⟩ <;> simp [generateHealthRecommendations]

/-- C9 amended: recommendations are the fixed general message set for the
level followed by group-gated messages; the respiratory group gets the mask
message at moderate and high, the medical-contact and stay-indoors messages
at very high and severe, and the medication message at every level above
minimal; at AQI 101 the level is moderate and a respiratory profile includes
the general sensitive-groups message plus the mask message. -/
theorem C9_amended_respiratory_gating :
    baseRiskLevel 101 = RiskLevel.moderate ∧
    ("Members of sensitive groups may experience health effects. The general public is less likely to be affected." ∈
      generateHealthRecommendations (baseRiskLevel 101) DemographicGroup.respiratory) ∧
    ("Consider using a mask (N95 or better) when outdoors." ∈
      generateHealthRecommendations (baseRiskLevel 101) DemographicGroup.respiratory) ∧
    ("Consider using a mask (N95 or better) when outdoors." ∈
      generateHealthRecommendations RiskLevel.moderate DemographicGroup.respiratory) ∧
    ("Consider using a mask (N95 or better) when outdoors." ∈
      generateHealthRecommendations RiskLevel.high DemographicGroup.respiratory) ∧
    ("Contact healthcare provider if symptoms worsen." ∈
      generateHealthRecommendations RiskLevel.very_high DemographicGroup.respiratory) ∧
    ("Contact healthcare provider if symptoms worsen." ∈
      generateHealthRecommendations RiskLevel.severe DemographicGroup.respiratory) ∧
    ("Stay indoors and use air purifiers if available." ∈
      generateHealthRecommendations RiskLevel.very_high DemographicGroup.respiratory) ∧
    ("Stay indoors and use air purifiers if available." ∈
      generateHealthRecommendations RiskLevel.severe DemographicGroup.respiratory) ∧
    ("Individuals with respiratory conditions should have medication readily available." ∈
      generateHealthRecommendations RiskLevel.low DemographicGroup.respiratory) ∧
    ("Individuals with respiratory conditions should have medication readily available." ∈
      generateHealthRecommendations RiskLevel.moderate DemographicGroup.respiratory) ∧
    ("Individuals with respiratory conditions should have medication readily available." ∈
      generateHealthRecommendations RiskLevel.high DemographicGroup.respiratory) ∧
    ("Individuals with respiratory conditions should have medication readily available." ∈
      generateHealthRecommendations RiskLevel.very_high DemographicGroup.respiratory) ∧
    ("Individuals with respiratory conditions should have medication readily available." ∈
      generateHealthRecommendations RiskLevel.severe DemographicGroup.respiratory) ∧
    (¬ "Individuals with respiratory conditions should have medication readily available." ∈
      generateHealthRecommendations RiskLevel.minimal DemographicGroup.respiratory) := by
  have hbase : baseRiskLevel 101 = RiskLevel.moderate := by norm_num [baseRiskLevel]
  rw [hbase]
  refine ⟨rfl, ?_, ?_, ?_, ?_, ?_, ?_, ?_, ?_, ?_, ?_, ?_, ?_, ?_, ?_⟩ <;>
    simp [generateHealthRecommendations]

/-- A concentration strictly between two adjacent brackets of a sorted,
well-formed table matches no bracket and is not above the table's top, so
`calculateAQIFromBreakpoints` returns the default 0. -/
lemma calcAQI_zero_of_gap (c : ℚ) (l1 l2 : List Breakpoint) (a b : Breakpoint)
    (hsorted : List.Pairwise (fun x y => x.max < y.min) (l1 ++ a :: b :: l2))
    (hwf : ∀ bp ∈ l1 ++ a :: b :: l2, bp.min ≤ bp.max)
    (ha : a.max < c) (hb : c < b.min) :
    calculateAQIFromBreakpoints c (l1 ++ a :: b :: l2) = 0 := by
  rw [List.pairwise_append] at hsorted
  obtain ⟨-, hp2, hcross⟩ := hsorted
  rw [List.pairwise_cons] at hp2
  obtain ⟨-, hp3⟩ := hp2
  rw [List.pairwise_cons] at hp3
  obtain ⟨hbcross, -⟩ := hp3
  have hawf : a.min ≤ a.max := hwf a (by simp)
  have hbwf : b.min ≤ b.max := hwf b (by simp)
  have hnone : findBracket c (l1 ++ a :: b :: l2) = none := by
    rw [findBracket_eq_none_iff]
    intro bp hbp
    rintro ⟨h1, h2⟩
    rcases List.mem_append.mp hbp with hbp1 | hbp2
    · have hxa : bp.max < a.min := hcross bp hbp1 a (by simp)
      linarith
    · rcases List.mem_cons.mp hbp2 with rfl | hbp3
      · linarith
      · rcases List.mem_cons.mp hbp3 with rfl | hbp4
        · linarith
        · have hxb : b.max < bp.min := hbcross bp hbp4
          linarith
  have hlast : (l1 ++ a :: b :: l2).getLast? = (b :: l2).getLast? := by
    rw [List.getLast?_append_cons, List.getLast?_cons_cons]
  obtain ⟨last, hlast2⟩ : ∃ last, (b :: l2).getLast? = some last :=
    ⟨(b :: l2).getLast (List.cons_ne_nil b l2),
      List.getLast?_eq_getLast_of_ne_nil (List.cons_ne_nil b l2)⟩
  have hlmem : last ∈ b :: l2 := mem_of_getLast?_eq hlast2
  have hle : c ≤ last.max := by
    rcases List.mem_cons.mp hlmem with rfl | hl
    · linarith
    · have h1 : b.max < last.min := hbcross last hl
      have h2 : last.min ≤ last.max := hwf last (by simp [hl])
      linarith
  rw [calcAQI_none_last c _ last hnone (hlast.trans hlast2),
    if_neg (by rw [gt_iff_lt, not_lt]; exact hle)]

/-- Claim C10: for every pollutant, any concentration lying strictly inside
the gap between two adjacent brackets of its breakpoint table yields the
below-table default 0, not an interpolated value from either neighbouring
bracket; in particular PM2.5 strictly between 12 and 12.1 and NO2 strictly
between 53 and 54 give 0. -/
theorem C10_gap_defaults_to_zero :
    (∀ (p : Pollutant) (l1 l2 : List Breakpoint) (a b : Breakpoint) (c : ℚ),
      breakpointsFor p = l1 ++ a :: b :: l2 →
      a.max < c → c < b.min → calcSubIndex p c = 0) ∧
    (∀ c : ℚ, 12 < c → c < 121/10 → calculatePM25AQI c = 0) ∧
    (∀ c : ℚ, 53 < c → c < 54 → calculateNO2AQI c = 0) := by
  have hgen : ∀ (p : Pollutant) (l1 l2 : List Breakpoint) (a b : Breakpoint) (c : ℚ),
      breakpointsFor p = l1 ++ a :: b :: l2 →
      a.max < c → c < b.min → calcSubIndex p c = 0 := by
    intro p l1 l2 a b c hsplit ha hb
    unfold calcSubIndex
    rw [hsplit]
    exact calcAQI_zero_of_gap c l1 l2 a b
      (by rw [← hsplit]; exact tables_sorted p)
      (by rw [← hsplit]; exact tables_wf p) ha hb
  refine ⟨hgen, ?_, ?_⟩
  · intro c hlo hhi
    exact hgen Pollutant.pm25 []
      [⟨355/10, 554/10, 101, 150⟩, ⟨555/10, 1504/10, 151, 200⟩,
       ⟨1505/10, 2504/10, 201, 300⟩, ⟨2505/10, 5004/10, 301, 500⟩]
      ⟨0, 12, 0, 50⟩ ⟨121/10, 354/10, 51, 100⟩ c rfl hlo hhi
  · intro c hlo hhi
    exact hgen Pollutant.no2 []
      [⟨101, 360, 101, 150⟩, ⟨361, 649, 151, 200⟩,
       ⟨650, 1249, 201, 300⟩, ⟨1250, 2049, 301, 500⟩]
      ⟨0, 53, 0, 50⟩ ⟨54, 100, 51, 100⟩ c rfl hlo hhi

/-- Witness for C10: the adjacent-bracket clause applied to the first PM2.5
gap at the concrete concentration 12.025. -/
theorem C10_gap_defaults_to_zero_witness :
    calcSubIndex Pollutant.pm25 (481/40) = 0 :=
  C10_gap_defaults_to_zero.1 Pollutant.pm25 []
    [⟨355/10, 554/10, 101, 150⟩, ⟨555/10, 1504/10, 151, 200⟩,
     ⟨1505/10, 2504/10, 201, 300⟩, ⟨2505/10, 5004/10, 301, 500⟩]
    ⟨0, 12, 0, 50⟩ ⟨121/10, 354/10, 51, 100⟩ (481/40) rfl (by norm_num) (by norm_num)
